import Mathlib

/-!
Shallow embedding of the handle-indirection bridge of `three-js-4-wasm`
(`src/index.ts`, `createContext`, and `runWasmModule` from the build entry).

The context state (`Ctx`) models the module-level mutable state captured by
`createContext`: the object registry `__OBJECTS`, the texture registry
`__TEXTURES`, the loaded-path set `__LOADED_TEXTURES`, the allocator counter
`__nextObjId`, the mouse-movement accumulators and the scene membership.
Registries are modelled as association lists keyed by `Int` (JS `Map.get`
semantics: first matching key).  Numeric scene attributes (positions, texture
`repeat`/`offset`) are modelled over `ℚ`; handles and pixel deltas over `ℤ`;
the optional `rows`/`columns` arguments over `Option Nat` with explicit JS
truthiness (`undefined` and `0` are falsy).

The external three.js collaborator is modelled by its documented behaviour at
the calls the bridge makes: constructors for the fixed geometry/material enums
succeed, `Texture.clone()` copies `repeat`, `offset` and the grid user data,
and `texture.repeat.set` / `texture.offset.set` mutate the texture object they
are called on (so a texture reached through the registry is mutated in place,
which `updateAssoc` makes explicit).
-/

namespace ThreeJs4Wasm

/-- JS truthiness of an optional numeric argument: `undefined` and `0` are
falsy, every other number is truthy. -/
def truthy : Option Nat → Bool
  | none => false
  | some n => n != 0

/-- Model of a `THREE.Texture` as the bridge observes it: its source path, the
optional atlas grid stored in `userData` (`rows`/`columns`), and the sampling
state `repeat`/`offset` (three.js defaults: repeat `(1,1)`, offset `(0,0)`). -/
structure Texture where
  path : String
  rows : Option Nat
  columns : Option Nat
  repeat_ : ℚ × ℚ
  offset : ℚ × ℚ
deriving DecidableEq

/-- Model of a `THREE.Object3D` held in `__OBJECTS`: whether it is a
`THREE.Sprite`, its sprite material map (a private texture clone), the grid
user data copied onto the sprite, and the mutable transform attributes. -/
structure Object3D where
  isSprite : Bool
  map : Option Texture
  userDataRows : Option Nat
  userDataColumns : Option Nat
  position : ℚ × ℚ × ℚ
  rotation : ℚ × ℚ × ℚ
  scale : ℚ × ℚ × ℚ
deriving DecidableEq

/-- The mutable state closed over by `createContext` in `src/index.ts`. -/
structure Ctx where
  objects : List (Int × Object3D)
  textures : List (Int × Texture)
  loadedTextures : List String
  nextObjId : Nat
  mouseMovementX : Int
  mouseMovementY : Int
  keysPressed : Nat
  scene : List Int
deriving DecidableEq

/-- The state of a context immediately after `createContext()`. -/
def initCtx : Ctx :=
  { objects := [], textures := [], loadedTextures := [], nextObjId := 0,
    mouseMovementX := 0, mouseMovementY := 0, keysPressed := 0, scene := [] }

/-- `Map.get` on an association list: the value of the first matching key. -/
def lookupAssoc {α : Type} : List (Int × α) → Int → Option α
  | [], _ => none
  | e :: rest, k => if k = e.1 then some e.2 else lookupAssoc rest k

/-- In-place mutation of the entry stored under key `k`: JS `Map.get` hands out
a reference, so mutating the returned object mutates the registry entry. -/
def updateAssoc {α : Type} (l : List (Int × α)) (k : Int) (f : α → α) :
    List (Int × α) :=
  l.map fun e => if e.1 = k then (e.1, f e.2) else e

/-- Valid codes of the `GeometryClass` enum (2001..2006): exactly these have a
reverse enum mapping, so `THREE[GeometryClass[g]]` is a constructor. -/
def isValidGeometry (g : Int) : Bool := 2001 ≤ g && g ≤ 2006

/-- Valid codes of the `MaterialClass` enum (1001..1008 and 1010..1012). -/
def isValidMaterial (m : Int) : Bool :=
  (1001 ≤ m && m ≤ 1008) || (1010 ≤ m && m ≤ 1012)

/-- A freshly constructed `THREE.Mesh` as `__OBJECTS` stores it (three.js
defaults: position/rotation zero, scale one, no sprite material). -/
def defaultMesh : Object3D :=
  { isSprite := false, map := none, userDataRows := none,
    userDataColumns := none, position := (0, 0, 0), rotation := (0, 0, 0),
    scale := (1, 1, 1) }

/-- `createObject(geometry, material)` (src/index.ts lines 92-114).  The
`try` block throws exactly when an enum code has no reverse mapping (then
`new undefined()` throws a `TypeError`); construction for the fixed, closed
enum sets is assumed to succeed, as the spec assumes of the collaborator.
On success the handle is the current counter value, which is then
incremented; on failure the catch returns `-1` with nothing changed. -/
def createObject (s : Ctx) (g m : Int) : Int × Ctx :=
  if isValidGeometry g && isValidMaterial m then
    ((s.nextObjId : Int),
      { s with objects := ((s.nextObjId : Int), defaultMesh) :: s.objects,
               nextObjId := s.nextObjId + 1 })
  else (-1, s)

/-- Result of one `addTexture` call: the returned code, the context after the
call, and whether the asynchronous `textureLoader.loadAsync` fetch was
started (every validation rejection happens before the fetch). -/
structure AddTexResult where
  ret : Int
  ctx : Ctx
  fetched : Bool
deriving DecidableEq

/-- `addTexture(id, path, rows?, columns?)` (src/index.ts lines 125-152).
Validation order is exactly the source order: duplicate path, duplicate
handle, then the truthiness-based grid check
`(rows && !columns) || (!rows && columns)`.  The fetch is modelled as
succeeding and yielding a fresh texture with three.js default sampling state;
`userData` is populated only under the source condition `rows || columns`. -/
def addTexture (s : Ctx) (id : Int) (path : String)
    (rows columns : Option Nat) : AddTexResult :=
  if path ∈ s.loadedTextures then { ret := -1, ctx := s, fetched := false }
  else if (lookupAssoc s.textures id).isSome then
    { ret := -1, ctx := s, fetched := false }
  else if (truthy rows && !truthy columns) || (!truthy rows && truthy columns)
  then { ret := -1, ctx := s, fetched := false }
  else
    let t0 : Texture :=
      { path := path, rows := none, columns := none, repeat_ := (1, 1),
        offset := (0, 0) }
    let t : Texture :=
      if truthy rows || truthy columns then
        { t0 with rows := rows, columns := columns }
      else t0
    { ret := id,
      ctx := { s with textures := (id, t) :: s.textures,
                      loadedTextures := path :: s.loadedTextures },
      fetched := true }

/-- `texture.repeat.set(1/columns, 1/rows)` guarded by the source condition
`texture.userData.rows || texture.userData.columns` — applied to the
registered texture itself in `createSprite`.  (In states reachable through
`addTexture` the guard implies both fields are present and nonzero; `getD 0`
is never hit there.) -/
def setRepeatIfGrid (t : Texture) : Texture :=
  if truthy t.rows || truthy t.columns then
    { t with repeat_ := (1 / ((t.columns.getD 0 : Nat) : ℚ),
                        1 / ((t.rows.getD 0 : Nat) : ℚ)) }
  else t

/-- `createSprite(textureId)` (src/index.ts lines 154-179).  Unknown texture
handle returns `-1`.  Otherwise the repeat is set on the registered texture
(via the reference returned by `__TEXTURES.get`), the sprite material map is
`texture.clone()` — a private copy taken after that mutation — the grid user
data is spread onto the sprite, and a fresh handle is allocated. -/
def createSprite (s : Ctx) (textureId : Int) : Int × Ctx :=
  match lookupAssoc s.textures textureId with
  | none => (-1, s)
  | some texture =>
    let texture2 := setRepeatIfGrid texture
    let sprite : Object3D :=
      { isSprite := true, map := some texture2,
        userDataRows := texture2.rows, userDataColumns := texture2.columns,
        position := (0, 0, 0), rotation := (0, 0, 0), scale := (1, 1, 1) }
    ((s.nextObjId : Int),
      { s with textures := updateAssoc s.textures textureId setRepeatIfGrid,
               objects := ((s.nextObjId : Int), sprite) :: s.objects,
               nextObjId := s.nextObjId + 1 })

/-- `setPosition(id, x, y, z)` (src/index.ts lines 189-203). -/
def setPosition (s : Ctx) (id : Int) (x y z : ℚ) : Int × Ctx :=
  match lookupAssoc s.objects id with
  | none => (-1, s)
  | some _ =>
    (0, { s with objects :=
            updateAssoc s.objects id fun o => { o with position := (x, y, z) } })

/-- `setRotation(id, x, y, z)` (src/index.ts lines 213-227). -/
def setRotation (s : Ctx) (id : Int) (x y z : ℚ) : Int × Ctx :=
  match lookupAssoc s.objects id with
  | none => (-1, s)
  | some _ =>
    (0, { s with objects :=
            updateAssoc s.objects id fun o => { o with rotation := (x, y, z) } })

/-- `setScale(id, x, y, z)` (src/index.ts lines 237-251). -/
def setScale (s : Ctx) (id : Int) (x y z : ℚ) : Int × Ctx :=
  match lookupAssoc s.objects id with
  | none => (-1, s)
  | some _ =>
    (0, { s with objects :=
            updateAssoc s.objects id fun o => { o with scale := (x, y, z) } })

/-- `addObjectToScene(id)` (src/index.ts lines 253-262): unknown handle
returns `-1` before the scene is touched; `THREE.Scene.add` gives set
semantics on scene membership.  (The model assumes `init` ran, as every
usage of the context does; the unknown-handle branch never reaches the
scene.) -/
def addObjectToScene (s : Ctx) (id : Int) : Int × Ctx :=
  match lookupAssoc s.objects id with
  | none => (-1, s)
  | some _ =>
    (0, { s with scene := if id ∈ s.scene then s.scene else id :: s.scene })

/-- `removeObjectFromScene(id)` (src/index.ts lines 269-278). -/
def removeObjectFromScene (s : Ctx) (id : Int) : Int × Ctx :=
  match lookupAssoc s.objects id with
  | none => (-1, s)
  | some _ => (0, { s with scene := s.scene.filter fun h => h != id })

/-- `texture.offset.set(frameX / columns, frameY / rows)` applied to a
sprite's private texture clone. -/
def setFrameOffset (fx fy : Int) (t : Texture) : Texture :=
  { t with offset := ((fx : ℚ) / ((t.columns.getD 0 : Nat) : ℚ),
                      (fy : ℚ) / ((t.rows.getD 0 : Nat) : ℚ)) }

/-- `setSpriteAnimationOffset(id, frameX, frameY)` (src/index.ts lines
291-318): rejects a missing or non-sprite object, a sprite material without a
map, and a map texture whose user data fails `!rows || !columns` (JS
truthiness); otherwise mutates the offset of the sprite's own map texture. -/
def setSpriteAnimationOffset (s : Ctx) (id fx fy : Int) : Int × Ctx :=
  match lookupAssoc s.objects id with
  | none => (-1, s)
  | some o =>
    if !o.isSprite then (-1, s)
    else
      match o.map with
      | none => (-1, s)
      | some t =>
        if !truthy t.rows || !truthy t.columns then (-1, s)
        else
          (0, { s with objects :=
                  updateAssoc s.objects id fun o2 =>
                    { o2 with map := Option.map (setFrameOffset fx fy) o2.map } })

/-- JS `ToUint32`: the unsigned 32-bit residue of an integer. -/
def toUInt32 (n : Int) : Nat := (n % 4294967296).toNat

/-- JS `ToInt32`: the signed 32-bit residue of an integer. -/
def toInt32 (n : Int) : Int :=
  let u := n % 4294967296
  if u < 2147483648 then u else u - 4294967296

/-- `packU16sToU32(low, high) = (high << 16) | (low & 0xFFFF)` (src/index.ts
lines 35-37) with exact JS 32-bit bitwise semantics: both operands are taken
to 32 bits, the shift wraps, and the result is a signed 32-bit integer. -/
def packU16sToU32 (low high : Int) : Int :=
  toInt32 (Int.ofNat
    (Nat.lor (toUInt32 (toInt32 (high * 65536))) (Nat.land (toUInt32 low) 65535)))

/-- The low 16 bits of a packed word, as read by a consumer of the word. -/
def decodeLow16 (w : Int) : Nat := toUInt32 w % 65536

/-- The high 16 bits of a packed word, as read by a consumer of the word. -/
def decodeHigh16 (w : Int) : Nat := toUInt32 w / 65536 % 65536

/-- `onMouseMove(ev)` (src/index.ts lines 39-42): accumulates the event's
`movementX`/`movementY` deltas. -/
def onMouseMove (s : Ctx) (dx dy : Int) : Ctx :=
  { s with mouseMovementX := s.mouseMovementX + dx,
           mouseMovementY := s.mouseMovementY + dy }

/-- `getMouseMovement()` (src/index.ts lines 78-83): packs the accumulators
and resets both to zero (drain-on-read). -/
def getMouseMovement (s : Ctx) : Int × Ctx :=
  (packU16sToU32 s.mouseMovementX s.mouseMovementY,
    { s with mouseMovementX := 0, mouseMovementY := 0 })

/-- The observable outcome of `WebAssembly.instantiate`: on success, whether
the instance exports a function named `step`. -/
structure WasmInstanceModel where
  hasStep : Bool
deriving DecidableEq

/-- `runWasmModule(wasmModule, imports, opts)` (src/vite.config.ts lines
257-291).  The instantiation outcome is a parameter (a rejected
`WebAssembly.instantiate` promise propagates out of the `await`); then the
source checks the `step` export and the scene/camera/renderer globals, in that
order, each by `throw` (promise rejection).  The boolean component records
whether `renderLoop()` was invoked: only the fully successful path starts the
per-frame step-then-render loop. -/
def runWasmModule (instantiation : Except String WasmInstanceModel)
    (sceneReady cameraReady rendererReady : Bool) :
    Except String WasmInstanceModel × Bool :=
  match instantiation with
  | Except.error e => (Except.error e, false)
  | Except.ok m =>
    if !m.hasStep then
      (Except.error "WASM module does not export a step function.", false)
    else if !sceneReady || !cameraReady || !rendererReady then
      (Except.error "THREE.js scene, camera, or renderer is not initialized.", false)
    else (Except.ok m, true)

/-- The guest-visible operations of one context, as an action language over
which call sequences are quantified. -/
inductive Act
  | createObject (g m : Int)
  | createSprite (t : Int)
  | addTexture (id : Int) (path : String) (rows columns : Option Nat)
  | setPosition (id : Int) (x y z : ℚ)
  | setRotation (id : Int) (x y z : ℚ)
  | setScale (id : Int) (x y z : ℚ)
  | addObjectToScene (id : Int)
  | removeObjectFromScene (id : Int)
  | setSpriteAnimationOffset (id fx fy : Int)
  | onMouseMove (dx dy : Int)
  | getMouseMovement
deriving DecidableEq

/-- One call on the context: the returned code and the updated state
(`onMouseMove` returns no value; its code is reported as `0`). -/
def runAct (s : Ctx) : Act → Int × Ctx
  | Act.createObject g m => createObject s g m
  | Act.createSprite t => createSprite s t
  | Act.addTexture id path rows columns =>
    let r := addTexture s id path rows columns
    (r.ret, r.ctx)
  | Act.setPosition id x y z => setPosition s id x y z
  | Act.setRotation id x y z => setRotation s id x y z
  | Act.setScale id x y z => setScale s id x y z
  | Act.addObjectToScene id => addObjectToScene s id
  | Act.removeObjectFromScene id => removeObjectFromScene s id
  | Act.setSpriteAnimationOffset id fx fy => setSpriteAnimationOffset s id fx fy
  | Act.onMouseMove dx dy => (0, onMouseMove s dx dy)
  | Act.getMouseMovement => getMouseMovement s

/-- The context state after a sequence of calls. -/
def execSeq : Ctx → List Act → Ctx
  | s, [] => s
  | s, a :: rest => execSeq (runAct s a).2 rest

/-- The handles returned by the successful (`≥ 0`) `createObject` and
`createSprite` calls of a sequence, in call order. -/
def createResults : Ctx → List Act → List Int
  | _, [] => []
  | s, a :: rest =>
    let r := (runAct s a).1
    let s2 := (runAct s a).2
    match a with
    | Act.createObject _ _ => (if 0 ≤ r then [r] else []) ++ createResults s2 rest
    | Act.createSprite _ => (if 0 ≤ r then [r] else []) ++ createResults s2 rest
    | _ => createResults s2 rest

/-- Number of texture-registry entries whose source path is `p`. -/
def countPath (s : Ctx) (p : String) : Nat :=
  (s.textures.filter fun e => e.2.path = p).length


/-! ## Helper lemmas about the registry model -/

theorem lookupAssoc_updateAssoc_self {α : Type} (l : List (Int × α)) (k : Int)
    (f : α → α) :
    lookupAssoc (updateAssoc l k f) k = (lookupAssoc l k).map f := by
  induction l with
  | nil => rfl
  | cons e rest ih =>
    by_cases h : k = e.1
    · simp [updateAssoc, lookupAssoc, h]
    · have h2 : ¬e.1 = k := fun hh => h hh.symm
      simp only [updateAssoc, List.map_cons, if_neg h2, lookupAssoc, if_neg h]
      simpa [updateAssoc] using ih

theorem lookupAssoc_updateAssoc_ne {α : Type} (l : List (Int × α)) (k k' : Int)
    (f : α → α) (h : k' ≠ k) :
    lookupAssoc (updateAssoc l k f) k' = lookupAssoc l k' := by
  induction l with
  | nil => rfl
  | cons e rest ih =>
    simp only [updateAssoc, List.map_cons]
    by_cases hk : e.1 = k
    · have h1 : ¬k' = e.1 := by rw [hk]; exact h
      rw [if_pos hk]
      simp only [lookupAssoc, if_neg h1]
      simpa [updateAssoc] using ih
    · rw [if_neg hk]
      simp only [lookupAssoc]
      by_cases he : k' = e.1
      · rw [if_pos he, if_pos he]
      · rw [if_neg he, if_neg he]
        simpa [updateAssoc] using ih

theorem lookupAssoc_updateAssoc_none {α : Type} (l : List (Int × α)) (k k' : Int)
    (f : α → α) (h : lookupAssoc l k' = none) :
    lookupAssoc (updateAssoc l k f) k' = none := by
  by_cases hk : k' = k
  · subst hk; rw [lookupAssoc_updateAssoc_self, h]; rfl
  · rw [lookupAssoc_updateAssoc_ne l k k' f hk]; exact h

/-! ## C2: atlas indexing is fractional -/

/-- A texture carrying atlas grid metadata, with the repeat already configured
at sprite creation (`1/columns × 1/rows`), used as a concrete witness input. -/
def gridTexture (p : String) (r c : Nat) : Texture :=
  { path := p, rows := some r, columns := some c,
    repeat_ := (1 / (c : ℚ), 1 / (r : ℚ)), offset := (0, 0) }

/-- A sprite whose material map is `gridTexture p r c`, as `createSprite`
builds it, used as a concrete witness input. -/
def gridSprite (p : String) (r c : Nat) : Object3D :=
  { isSprite := true, map := some (gridTexture p r c),
    userDataRows := some r, userDataColumns := some c,
    position := (0, 0, 0), rotation := (0, 0, 0), scale := (1, 1, 1) }

/-- C2: for every sprite whose map texture carries grid metadata
`rows = r`, `columns = c` (both nonzero), `setSpriteAnimationOffset`
returns 0 and sets that sprite texture's offset to the fractional
texture-coordinate values `(frameX / columns, frameY / rows)`. -/
theorem C2_setSpriteAnimationOffset_fractional
    (s : Ctx) (id fx fy : Int) (o : Object3D) (t : Texture) (r c : Nat)
    (hlook : lookupAssoc s.objects id = some o)
    (hsprite : o.isSprite = true)
    (hmap : o.map = some t)
    (hrows : t.rows = some r) (hcols : t.columns = some c)
    (hr : r ≠ 0) (hc : c ≠ 0) :
    (setSpriteAnimationOffset s id fx fy).1 = 0 ∧
    lookupAssoc (setSpriteAnimationOffset s id fx fy).2.objects id =
      some { o with map := some { t with offset := ((fx : ℚ) / (c : ℚ), (fy : ℚ) / (r : ℚ)) } } := by
  have ht : (!truthy t.rows || !truthy t.columns) = false := by
    simp [truthy, hrows, hcols, hr, hc]
  simp [setSpriteAnimationOffset, hlook, hsprite, hmap, ht,
    lookupAssoc_updateAssoc_self, setFrameOffset, hrows, hcols, truthy, hr, hc]

/-- Witness for C2, covering the four atlas examples of the spec:
grid (3,3) frame (0,0) gives offset (0,0); grid (4,4) frames (0,1), (1,1),
(1,2) give offsets (0,1/4), (1/4,1/4), (1/4,1/2). -/
theorem C2_setSpriteAnimationOffset_fractional_witness :
    ((setSpriteAnimationOffset
        { initCtx with objects := [(0, gridSprite "a.png" 3 3)] } 0 0 0).1 = 0 ∧
      lookupAssoc (setSpriteAnimationOffset
        { initCtx with objects := [(0, gridSprite "a.png" 3 3)] } 0 0 0).2.objects 0 =
        some { gridSprite "a.png" 3 3 with map := some { gridTexture "a.png" 3 3 with offset := ((0 : ℚ), (0 : ℚ)) } }) ∧
    ((setSpriteAnimationOffset
        { initCtx with objects := [(1, gridSprite "b.png" 4 4)] } 1 0 1).1 = 0 ∧
      lookupAssoc (setSpriteAnimationOffset
        { initCtx with objects := [(1, gridSprite "b.png" 4 4)] } 1 0 1).2.objects 1 =
        some { gridSprite "b.png" 4 4 with map := some { gridTexture "b.png" 4 4 with offset := ((0 : ℚ), (1 / 4 : ℚ)) } }) ∧
    ((setSpriteAnimationOffset
        { initCtx with objects := [(1, gridSprite "b.png" 4 4)] } 1 1 1).1 = 0 ∧
      lookupAssoc (setSpriteAnimationOffset
        { initCtx with objects := [(1, gridSprite "b.png" 4 4)] } 1 1 1).2.objects 1 =
        some { gridSprite "b.png" 4 4 with map := some { gridTexture "b.png" 4 4 with offset := ((1 / 4 : ℚ), (1 / 4 : ℚ)) } }) ∧
    ((setSpriteAnimationOffset
        { initCtx with objects := [(1, gridSprite "b.png" 4 4)] } 1 1 2).1 = 0 ∧
      lookupAssoc (setSpriteAnimationOffset
        { initCtx with objects := [(1, gridSprite "b.png" 4 4)] } 1 1 2).2.objects 1 =
        some { gridSprite "b.png" 4 4 with map := some { gridTexture "b.png" 4 4 with offset := ((1 / 4 : ℚ), (1 / 2 : ℚ)) } }) := by
  refine ⟨?_, ?_, ?_, ?_⟩ <;>
    [have h := C2_setSpriteAnimationOffset_fractional
        { initCtx with objects := [(0, gridSprite "a.png" 3 3)] } 0 0 0
        (gridSprite "a.png" 3 3) (gridTexture "a.png" 3 3) 3 3 rfl rfl rfl rfl rfl
        (by decide) (by decide);
     have h := C2_setSpriteAnimationOffset_fractional
        { initCtx with objects := [(1, gridSprite "b.png" 4 4)] } 1 0 1
        (gridSprite "b.png" 4 4) (gridTexture "b.png" 4 4) 4 4 rfl rfl rfl rfl rfl
        (by decide) (by decide);
     have h := C2_setSpriteAnimationOffset_fractional
        { initCtx with objects := [(1, gridSprite "b.png" 4 4)] } 1 1 1
        (gridSprite "b.png" 4 4) (gridTexture "b.png" 4 4) 4 4 rfl rfl rfl rfl rfl
        (by decide) (by decide);
     have h := C2_setSpriteAnimationOffset_fractional
        { initCtx with objects := [(1, gridSprite "b.png" 4 4)] } 1 1 2
        (gridSprite "b.png" 4 4) (gridTexture "b.png" 4 4) 4 4 rfl rfl rfl rfl rfl
        (by decide) (by decide)] <;>
    · refine ⟨h.1, ?_⟩
      rw [h.2]
      norm_num

/-! ## C6: addTexture validation and JS truthiness -/

/-- Counterexample to C6 as stated: `addTexture(1, "a.png", rows=0, columns=5)`
supplies both grid arguments yet is rejected before the fetch, and
`addTexture(1, "a.png", rows=0)` supplies exactly one grid argument yet passes
the grid validation and starts the fetch — because the source tests JS
truthiness, under which a supplied `0` behaves as absent. -/
theorem C6_zero_grid_counterexample :
    (addTexture initCtx 1 "a.png" (some 0) (some 5)).ret = -1 ∧
    (addTexture initCtx 1 "a.png" (some 0) (some 5)).fetched = false ∧
    (addTexture initCtx 1 "a.png" (some 0) none).fetched = true := by decide

/-- C6 (amended): with a grid argument counted as supplied only when it is
present and nonzero (JS truthiness), an `addTexture` call supplying exactly
one of rows/columns is rejected before the asynchronous fetch begins — it
returns -1, creates no registry entry and marks no path as loaded; a
duplicate path or an already-occupied handle is likewise rejected before the
fetch; and a call where both or neither of rows/columns is present-and-nonzero
passes the grid validation, so the fetch is started. -/
theorem C6_addTexture_validates_before_fetch
    (s : Ctx) (id : Int) (p : String) (rows columns : Option Nat) :
    (truthy rows ≠ truthy columns →
      addTexture s id p rows columns = { ret := -1, ctx := s, fetched := false }) ∧
    (p ∈ s.loadedTextures →
      addTexture s id p rows columns = { ret := -1, ctx := s, fetched := false }) ∧
    ((lookupAssoc s.textures id).isSome = true →
      addTexture s id p rows columns = { ret := -1, ctx := s, fetched := false }) ∧
    (p ∉ s.loadedTextures → lookupAssoc s.textures id = none →
      truthy rows = truthy columns →
      (addTexture s id p rows columns).fetched = true ∧
      (addTexture s id p rows columns).ret = id) := by
  refine ⟨?_, ?_, ?_, ?_⟩
  · intro hne
    have hgrid : ((truthy rows && !truthy columns) ||
        (!truthy rows && truthy columns)) = true := by
      cases hr : truthy rows <;> cases hc : truthy columns <;> simp_all
    unfold addTexture
    split_ifs <;> simp_all
  · intro hp
    simp [addTexture, hp]
  · intro hid
    unfold addTexture
    split_ifs <;> simp_all
  · intro hp hid hgrid
    have hg : ((truthy rows && !truthy columns) ||
        (!truthy rows && truthy columns)) = false := by
      cases hr : truthy rows <;> cases hc : truthy columns <;> simp_all
    simp [addTexture, hp, hid, hg]

/-- Witness for the amended C6 at concrete inputs: `rows=5` alone is rejected
without a fetch, and `rows=2, columns=2` passes validation and fetches. -/
theorem C6_addTexture_validates_before_fetch_witness :
    addTexture initCtx 1 "a.png" (some 5) none =
      { ret := -1, ctx := initCtx, fetched := false } ∧
    (addTexture initCtx 1 "a.png" (some 2) (some 2)).fetched = true ∧
    (addTexture initCtx 1 "a.png" (some 2) (some 2)).ret = 1 := by
  refine ⟨?_, ?_⟩
  · exact (C6_addTexture_validates_before_fetch initCtx 1 "a.png" (some 5) none).1
      (by decide)
  · exact (C6_addTexture_validates_before_fetch initCtx 1 "a.png"
      (some 2) (some 2)).2.2.2 (by decide) (by decide) (by decide)

/-! ## C7: mouse-movement packing and drain-on-read -/

theorem foldl_onMouseMove_movementX (ds : List (Int × Int)) :
    ∀ s : Ctx, (ds.foldl (fun c d => onMouseMove c d.1 d.2) s).mouseMovementX
      = s.mouseMovementX + (ds.map Prod.fst).sum := by
  induction ds with
  | nil => intro s; simp
  | cons d rest ih =>
    intro s
    rw [List.foldl_cons, ih]
    simp [onMouseMove, Int.add_assoc]

theorem foldl_onMouseMove_movementY (ds : List (Int × Int)) :
    ∀ s : Ctx, (ds.foldl (fun c d => onMouseMove c d.1 d.2) s).mouseMovementY
      = s.mouseMovementY + (ds.map Prod.snd).sum := by
  induction ds with
  | nil => intro s; simp
  | cons d rest ih =>
    intro s
    rw [List.foldl_cons, ih]
    simp [onMouseMove, Int.add_assoc]

/-- C7: after `onMouseMove` events accumulating total deltas (3, 4) into
freshly-zeroed accumulators, `getMouseMovement` returns a word whose low 16
bits decode to 3 and whose high 16 bits decode to 4, resets both accumulators
to zero, and an immediately following second call returns a word decoding to
(0, 0). -/
theorem C7_getMouseMovement_drain
    (s : Ctx) (ds : List (Int × Int))
    (hx : s.mouseMovementX = 0) (hy : s.mouseMovementY = 0)
    (hsx : (ds.map Prod.fst).sum = 3) (hsy : (ds.map Prod.snd).sum = 4) :
    decodeLow16 (getMouseMovement
      (ds.foldl (fun c d => onMouseMove c d.1 d.2) s)).1 = 3 ∧
    decodeHigh16 (getMouseMovement
      (ds.foldl (fun c d => onMouseMove c d.1 d.2) s)).1 = 4 ∧
    (getMouseMovement
      (ds.foldl (fun c d => onMouseMove c d.1 d.2) s)).2.mouseMovementX = 0 ∧
    (getMouseMovement
      (ds.foldl (fun c d => onMouseMove c d.1 d.2) s)).2.mouseMovementY = 0 ∧
    decodeLow16 (getMouseMovement (getMouseMovement
      (ds.foldl (fun c d => onMouseMove c d.1 d.2) s)).2).1 = 0 ∧
    decodeHigh16 (getMouseMovement (getMouseMovement
      (ds.foldl (fun c d => onMouseMove c d.1 d.2) s)).2).1 = 0 := by
  have h1 : (ds.foldl (fun c d => onMouseMove c d.1 d.2) s).mouseMovementX = 3 := by
    rw [foldl_onMouseMove_movementX, hx, hsx]
    ring
  have h2 : (ds.foldl (fun c d => onMouseMove c d.1 d.2) s).mouseMovementY = 4 := by
    rw [foldl_onMouseMove_movementY, hy, hsy]
    ring
  refine ⟨?_, ?_, ?_, ?_, ?_, ?_⟩ <;>
    simp only [getMouseMovement, h1, h2] <;> decide

/-- Witness for C7 at the concrete input: one `onMouseMove(3, 4)` event on a
fresh context. -/
theorem C7_getMouseMovement_drain_witness :
    decodeLow16 (getMouseMovement
      ([((3 : Int), (4 : Int))].foldl (fun c d => onMouseMove c d.1 d.2) initCtx)).1 = 3 ∧
    decodeHigh16 (getMouseMovement
      ([((3 : Int), (4 : Int))].foldl (fun c d => onMouseMove c d.1 d.2) initCtx)).1 = 4 ∧
    (getMouseMovement
      ([((3 : Int), (4 : Int))].foldl (fun c d => onMouseMove c d.1 d.2) initCtx)).2.mouseMovementX = 0 ∧
    (getMouseMovement
      ([((3 : Int), (4 : Int))].foldl (fun c d => onMouseMove c d.1 d.2) initCtx)).2.mouseMovementY = 0 ∧
    decodeLow16 (getMouseMovement (getMouseMovement
      ([((3 : Int), (4 : Int))].foldl (fun c d => onMouseMove c d.1 d.2) initCtx)).2).1 = 0 ∧
    decodeHigh16 (getMouseMovement (getMouseMovement
      ([((3 : Int), (4 : Int))].foldl (fun c d => onMouseMove c d.1 d.2) initCtx)).2).1 = 0 :=
  C7_getMouseMovement_drain initCtx [((3 : Int), (4 : Int))] rfl rfl (by decide) (by decide)

/-! ## C8: bridge setup failures are fatal -/

/-- Whether a bridge-setup outcome is a rejected promise. -/
def isFatal {α : Type} : Except String α → Bool
  | Except.error _ => true
  | Except.ok _ => false

/-- C8: `runWasmModule` surfaces a fatal error (the returned promise rejects)
and never starts the per-frame step-then-render loop when instantiation
fails, when the guest module does not export a `step` function, or when the
host scene, camera, or renderer is not initialized. -/
theorem C8_runWasmModule_fatal_on_setup_failure
    (inst : Except String WasmInstanceModel) (sc ca re : Bool)
    (h : isFatal inst = true ∨ (∃ m, inst = Except.ok m ∧ m.hasStep = false) ∨
      sc = false ∨ ca = false ∨ re = false) :
    isFatal (runWasmModule inst sc ca re).1 = true ∧
    (runWasmModule inst sc ca re).2 = false := by
  cases inst with
  | error e => simp [runWasmModule, isFatal]
  | ok m =>
    rcases h with h | ⟨m2, hm, hs⟩ | h | h | h
    · simp [isFatal] at h
    · injection hm with heq
      subst heq
      simp [runWasmModule, hs, isFatal]
    all_goals
      subst h
      by_cases hstep : m.hasStep <;> simp [runWasmModule, hstep, isFatal]

/-- Witness for C8: an instantiated module without a `step` export, with the
host environment fully initialized, is rejected and the loop never starts. -/
theorem C8_runWasmModule_fatal_on_setup_failure_witness :
    isFatal (runWasmModule (Except.ok { hasStep := false }) true true true).1 = true ∧
    (runWasmModule (Except.ok { hasStep := false }) true true true).2 = false :=
  C8_runWasmModule_fatal_on_setup_failure (Except.ok { hasStep := false })
    true true true (Or.inr (Or.inl ⟨{ hasStep := false }, rfl, rfl⟩))

/-! ## C3: createSprite and the texture clone -/

/-- Every `setSpriteAnimationOffset` call either rejects with the state
unchanged, or succeeds mutating only the offset of the addressed sprite's own
map texture. -/
theorem setSpriteAnimationOffset_shape (s : Ctx) (id fx fy : Int) :
    setSpriteAnimationOffset s id fx fy = (-1, s) ∨
    setSpriteAnimationOffset s id fx fy =
      (0, { s with objects := updateAssoc s.objects id fun o2 =>
              { o2 with map := Option.map (setFrameOffset fx fy) o2.map } }) := by
  unfold setSpriteAnimationOffset
  cases h : lookupAssoc s.objects id with
  | none => exact Or.inl rfl
  | some o =>
    dsimp only
    cases h1 : o.isSprite with
    | false =>
      rw [if_pos (by simp [h1])]
      exact Or.inl rfl
    | true =>
      rw [if_neg (by simp [h1])]
      cases h2 : o.map with
      | none => exact Or.inl rfl
      | some t =>
        dsimp only
        cases h3 : (!truthy t.rows || !truthy t.columns) with
        | true => exact Or.inl rfl
        | false => exact Or.inr rfl

/-- The registry state after `addTexture(0, "a.png", rows=2, columns=2)` on a
fresh context. -/
def ctxTex22 : Ctx := (addTexture initCtx 0 "a.png" (some 2) (some 2)).ctx

/-- Counterexample to C3 as stated: the grid repeat is not applied to a
private copy — `createSprite` sets it on the registered texture itself.  The
texture registered under handle 0 has repeat (1, 1) before `createSprite(0)`
and repeat (1/2, 1/2) after it, so the sampling state of the original
registered texture is changed by sprite creation. -/
theorem C3_createSprite_mutates_registered_texture :
    lookupAssoc ctxTex22.textures 0 =
      some { path := "a.png", rows := some 2, columns := some 2, repeat_ := (1, 1), offset := (0, 0) } ∧
    lookupAssoc ((createSprite ctxTex22 0).2).textures 0 =
      some { path := "a.png", rows := some 2, columns := some 2, repeat_ := ((1 : ℚ) / 2, (1 : ℚ) / 2), offset := (0, 0) } := by
  constructor
  · simp [ctxTex22, addTexture, initCtx, lookupAssoc, truthy]
  · simp [ctxTex22, addTexture, initCtx, lookupAssoc, updateAssoc, createSprite,
      setRepeatIfGrid, truthy]

/-- C3 (amended): `createSprite` returns -1 when the texture handle is not in
the texture registry; when the texture carries grid metadata (rows = r,
columns = c, both nonzero), the repeat (1/c, 1/r) is set on the registered
texture itself, and the sprite receives a private clone carrying that repeat,
so subsequent `setSpriteAnimationOffset` calls on one sprite never change the
texture registry and never change any other object. -/
theorem C3_createSprite_clone_after_repeat
    (s : Ctx) (tid : Int) (t : Texture) (r c : Nat)
    (hl : lookupAssoc s.textures tid = some t)
    (hrows : t.rows = some r) (hcols : t.columns = some c)
    (hr : r ≠ 0) (hc : c ≠ 0) :
    (∀ (s2 : Ctx) (tid2 : Int), lookupAssoc s2.textures tid2 = none →
      createSprite s2 tid2 = (-1, s2)) ∧
    (createSprite s tid).1 = (s.nextObjId : Int) ∧
    lookupAssoc (createSprite s tid).2.textures tid =
      some { t with repeat_ := (1 / (c : ℚ), 1 / (r : ℚ)) } ∧
    lookupAssoc (createSprite s tid).2.objects (s.nextObjId : Int) =
      some { isSprite := true, map := some { t with repeat_ := (1 / (c : ℚ), 1 / (r : ℚ)) }, userDataRows := some r, userDataColumns := some c, position := (0, 0, 0), rotation := (0, 0, 0), scale := (1, 1, 1) } ∧
    (∀ (s2 : Ctx) (hs fx fy : Int),
      (setSpriteAnimationOffset s2 hs fx fy).2.textures = s2.textures ∧
      ∀ h2 : Int, h2 ≠ hs →
        lookupAssoc (setSpriteAnimationOffset s2 hs fx fy).2.objects h2 =
          lookupAssoc s2.objects h2) := by
  have hgrid : setRepeatIfGrid t = { t with repeat_ := (1 / (c : ℚ), 1 / (r : ℚ)) } := by
    simp [setRepeatIfGrid, truthy, hrows, hcols, hr, hc]
  refine ⟨?_, ?_, ?_, ?_, ?_⟩
  · intro s2 tid2 h
    simp [createSprite, h]
  · simp [createSprite, hl]
  · simp only [createSprite, hl]
    rw [lookupAssoc_updateAssoc_self, hl]
    simp [hgrid]
  · simp only [createSprite, hl, lookupAssoc]
    simp [hgrid, hrows, hcols]
  · intro s2 hs fx fy
    rcases setSpriteAnimationOffset_shape s2 hs fx fy with h | h <;> rw [h]
    · exact ⟨rfl, fun h2 _ => rfl⟩
    · refine ⟨rfl, fun h2 hne => ?_⟩
      dsimp only
      exact lookupAssoc_updateAssoc_ne _ _ _ _ hne

/-- Witness for the amended C3 at concrete inputs: unknown handle 7 on a fresh
context is rejected; `createSprite(0)` on `ctxTex22` returns handle 0, leaves
the registered texture with repeat (1/2, 1/2), and a subsequent
`setSpriteAnimationOffset` on the sprite leaves the texture registry
untouched. -/
theorem C3_createSprite_clone_after_repeat_witness :
    createSprite initCtx 7 = (-1, initCtx) ∧
    (createSprite ctxTex22 0).1 = 0 ∧
    lookupAssoc (createSprite ctxTex22 0).2.textures 0 =
      some { path := "a.png", rows := some 2, columns := some 2, repeat_ := ((1 : ℚ) / 2, (1 : ℚ) / 2), offset := (0, 0) } ∧
    (setSpriteAnimationOffset (createSprite ctxTex22 0).2 0 1 1).2.textures =
      (createSprite ctxTex22 0).2.textures := by
  have h := C3_createSprite_clone_after_repeat ctxTex22 0
      { path := "a.png", rows := some 2, columns := some 2, repeat_ := (1, 1), offset := (0, 0) } 2 2
      (by simp [ctxTex22, addTexture, initCtx, lookupAssoc, truthy]) rfl rfl
      (by decide) (by decide)
  refine ⟨h.1 initCtx 7 rfl, ?_, ?_, (h.2.2.2.2 (createSprite ctxTex22 0).2 0 1 1).1⟩
  · have h2 := h.2.1
    simpa [ctxTex22, addTexture, initCtx, truthy] using h2
  · have h2 := h.2.2.1
    simpa using h2

/-! ## C4: failed creation does not consume a handle -/

/-- C4: a rejected `createObject` (invalid enum code) or `createSprite`
(unknown texture handle) call returns -1 and leaves the whole context — in
particular the allocator counter and the object registry — unchanged, so the
next successful creation returns exactly the handle that would have been
issued had the failure not occurred. -/
theorem C4_failed_creation_preserves_allocator
    (s : Ctx) (g m t g2 m2 : Int)
    (hbad : (isValidGeometry g && isValidMaterial m) = false)
    (ht : lookupAssoc s.textures t = none)
    (hok : (isValidGeometry g2 && isValidMaterial m2) = true) :
    createObject s g m = (-1, s) ∧
    createSprite s t = (-1, s) ∧
    (createObject (createObject s g m).2 g2 m2).1 = (s.nextObjId : Int) ∧
    (createObject (createSprite s t).2 g2 m2).1 = (s.nextObjId : Int) ∧
    (createObject s g2 m2).1 = (s.nextObjId : Int) := by
  have h1 : createObject s g m = (-1, s) := by simp [createObject, hbad]
  have h2 : createSprite s t = (-1, s) := by simp [createSprite, ht]
  refine ⟨h1, h2, ?_, ?_, ?_⟩
  · rw [h1]
    simp [createObject, hok]
  · rw [h2]
    simp [createObject, hok]
  · simp [createObject, hok]

/-- Witness for C4: on a fresh context, the invalid codes (0, 0) and the
unknown texture handle 9 are rejected without consuming handle 0, which the
next valid `createObject(BoxGeometry, MeshBasicMaterial)` then returns. -/
theorem C4_failed_creation_preserves_allocator_witness :
    createObject initCtx 0 0 = (-1, initCtx) ∧
    createSprite initCtx 9 = (-1, initCtx) ∧
    (createObject (createObject initCtx 0 0).2 2001 1001).1 = 0 ∧
    (createObject (createSprite initCtx 9).2 2001 1001).1 = 0 ∧
    (createObject initCtx 2001 1001).1 = 0 :=
  C4_failed_creation_preserves_allocator initCtx 0 0 9 2001 1001
    (by decide) rfl (by decide)

/-! ## C10: zero grid dimensions behave as absent -/

/-- C10: in `addTexture` a grid dimension equal to 0 is treated as absent
because validation and storage test JS truthiness: `addTexture(h, p, 0, 0)`
passes the grid validation and stores the texture without grid metadata,
while `addTexture(h, p, 0, c)` with `c > 0` is rejected as an incomplete grid
even though both arguments were supplied; a sprite created from the texture
loaded with rows = columns = 0 has no grid, and `setSpriteAnimationOffset` on
that sprite returns -1 leaving the state unchanged. -/
theorem C10_zero_grid_truthiness
    (s : Ctx) (h : Int) (p : String) (c : Nat) (fx fy : Int)
    (hp : p ∉ s.loadedTextures) (hh : lookupAssoc s.textures h = none)
    (hc : c ≠ 0) :
    (addTexture s h p (some 0) (some 0)).ret = h ∧
    (addTexture s h p (some 0) (some 0)).fetched = true ∧
    lookupAssoc (addTexture s h p (some 0) (some 0)).ctx.textures h =
      some { path := p, rows := none, columns := none, repeat_ := (1, 1), offset := (0, 0) } ∧
    addTexture s h p (some 0) (some c) = { ret := -1, ctx := s, fetched := false } ∧
    (createSprite (addTexture s h p (some 0) (some 0)).ctx h).1 =
      (s.nextObjId : Int) ∧
    setSpriteAnimationOffset (createSprite (addTexture s h p (some 0) (some 0)).ctx h).2
        (createSprite (addTexture s h p (some 0) (some 0)).ctx h).1 fx fy =
      (-1, (createSprite (addTexture s h p (some 0) (some 0)).ctx h).2) := by
  have hA : addTexture s h p (some 0) (some 0) =
      { ret := h,
        ctx := { s with
          textures := (h, { path := p, rows := none, columns := none, repeat_ := (1, 1), offset := (0, 0) }) :: s.textures,
          loadedTextures := p :: s.loadedTextures },
        fetched := true } := by
    simp [addTexture, hp, hh, truthy]
  have hB : addTexture s h p (some 0) (some c) = { ret := -1, ctx := s, fetched := false } := by
    simp [addTexture, hp, hh, truthy, hc]
  refine ⟨by rw [hA], by rw [hA], ?_, hB, ?_, ?_⟩
  · rw [hA]
    simp [lookupAssoc]
  · rw [hA]
    simp [createSprite, lookupAssoc, setRepeatIfGrid, truthy]
  · rw [hA]
    simp [createSprite, lookupAssoc, setRepeatIfGrid, truthy,
      setSpriteAnimationOffset]

/-- Witness for C10 at concrete inputs: handle 5, path "a.png", the rejected
variant with columns = 7, and frame (1, 2). -/
theorem C10_zero_grid_truthiness_witness :
    (addTexture initCtx 5 "a.png" (some 0) (some 0)).ret = 5 ∧
    (addTexture initCtx 5 "a.png" (some 0) (some 0)).fetched = true ∧
    lookupAssoc (addTexture initCtx 5 "a.png" (some 0) (some 0)).ctx.textures 5 =
      some { path := "a.png", rows := none, columns := none, repeat_ := (1, 1), offset := (0, 0) } ∧
    addTexture initCtx 5 "a.png" (some 0) (some 7) = { ret := -1, ctx := initCtx, fetched := false } ∧
    (createSprite (addTexture initCtx 5 "a.png" (some 0) (some 0)).ctx 5).1 = 0 ∧
    setSpriteAnimationOffset (createSprite (addTexture initCtx 5 "a.png" (some 0) (some 0)).ctx 5).2
        (createSprite (addTexture initCtx 5 "a.png" (some 0) (some 0)).ctx 5).1 1 2 =
      (-1, (createSprite (addTexture initCtx 5 "a.png" (some 0) (some 0)).ctx 5).2) :=
  C10_zero_grid_truthiness initCtx 5 "a.png" 7 1 2 (by decide) rfl (by decide)

/-! ## Per-operation shape lemmas for traces -/

theorem createObject_cases (s : Ctx) (g m : Int) :
    createObject s g m = (-1, s) ∨
    createObject s g m = ((s.nextObjId : Int),
      { s with objects := ((s.nextObjId : Int), defaultMesh) :: s.objects,
               nextObjId := s.nextObjId + 1 }) := by
  unfold createObject
  split_ifs
  · exact Or.inr rfl
  · exact Or.inl rfl

theorem createSprite_cases (s : Ctx) (t : Int) :
    createSprite s t = (-1, s) ∨
    ∃ o : Object3D, createSprite s t = ((s.nextObjId : Int),
      { s with textures := updateAssoc s.textures t setRepeatIfGrid,
               objects := ((s.nextObjId : Int), o) :: s.objects,
               nextObjId := s.nextObjId + 1 }) := by
  unfold createSprite
  cases lookupAssoc s.textures t with
  | none => exact Or.inl rfl
  | some texture => exact Or.inr ⟨_, rfl⟩

theorem addTexture_ctx_cases (s : Ctx) (id : Int) (p : String)
    (rows columns : Option Nat) :
    (addTexture s id p rows columns).ctx = s ∨
    (p ∉ s.loadedTextures ∧ ∃ t : Texture, t.path = p ∧
      (addTexture s id p rows columns).ctx =
        { s with textures := (id, t) :: s.textures,
                 loadedTextures := p :: s.loadedTextures }) := by
  unfold addTexture
  split_ifs with h1 h2 h3 h4
  · exact Or.inl rfl
  · exact Or.inl rfl
  · exact Or.inl rfl
  · exact Or.inr ⟨h1, _, rfl, rfl⟩
  · exact Or.inr ⟨h1, _, rfl, rfl⟩

theorem addTexture_dup_path (s : Ctx) (id : Int) (p : String)
    (rows columns : Option Nat) (h : p ∈ s.loadedTextures) :
    addTexture s id p rows columns = { ret := -1, ctx := s, fetched := false } := by
  simp [addTexture, h]

theorem setPosition_cases (s : Ctx) (id : Int) (x y z : ℚ) :
    setPosition s id x y z = (-1, s) ∨
    setPosition s id x y z = (0, { s with objects := updateAssoc s.objects id fun o => { o with position := (x, y, z) } }) := by
  unfold setPosition
  cases lookupAssoc s.objects id with
  | none => exact Or.inl rfl
  | some o => exact Or.inr rfl

theorem setRotation_cases (s : Ctx) (id : Int) (x y z : ℚ) :
    setRotation s id x y z = (-1, s) ∨
    setRotation s id x y z = (0, { s with objects := updateAssoc s.objects id fun o => { o with rotation := (x, y, z) } }) := by
  unfold setRotation
  cases lookupAssoc s.objects id with
  | none => exact Or.inl rfl
  | some o => exact Or.inr rfl

theorem setScale_cases (s : Ctx) (id : Int) (x y z : ℚ) :
    setScale s id x y z = (-1, s) ∨
    setScale s id x y z = (0, { s with objects := updateAssoc s.objects id fun o => { o with scale := (x, y, z) } }) := by
  unfold setScale
  cases lookupAssoc s.objects id with
  | none => exact Or.inl rfl
  | some o => exact Or.inr rfl

theorem addObjectToScene_cases (s : Ctx) (id : Int) :
    addObjectToScene s id = (-1, s) ∨
    addObjectToScene s id =
      (0, { s with scene := if id ∈ s.scene then s.scene else id :: s.scene }) := by
  unfold addObjectToScene
  cases lookupAssoc s.objects id with
  | none => exact Or.inl rfl
  | some o => exact Or.inr rfl

theorem removeObjectFromScene_cases (s : Ctx) (id : Int) :
    removeObjectFromScene s id = (-1, s) ∨
    removeObjectFromScene s id =
      (0, { s with scene := s.scene.filter fun h => h != id }) := by
  unfold removeObjectFromScene
  cases lookupAssoc s.objects id with
  | none => exact Or.inl rfl
  | some o => exact Or.inr rfl

/-! ## Allocator monotonicity along a trace -/

theorem runAct_nextObjId_le (s : Ctx) (a : Act) :
    s.nextObjId ≤ (runAct s a).2.nextObjId := by
  cases a with
  | createObject g m =>
    rcases createObject_cases s g m with h | h <;> simp [runAct, h, Nat.le_succ]
  | createSprite t =>
    rcases createSprite_cases s t with h | ⟨o, h⟩ <;> simp [runAct, h, Nat.le_succ]
  | addTexture id p rows columns =>
    rcases addTexture_ctx_cases s id p rows columns with h | ⟨_, t, _, h⟩ <;>
      simp [runAct, h]
  | setPosition id x y z =>
    rcases setPosition_cases s id x y z with h | h <;> simp [runAct, h]
  | setRotation id x y z =>
    rcases setRotation_cases s id x y z with h | h <;> simp [runAct, h]
  | setScale id x y z =>
    rcases setScale_cases s id x y z with h | h <;> simp [runAct, h]
  | addObjectToScene id =>
    rcases addObjectToScene_cases s id with h | h <;> simp [runAct, h]
  | removeObjectFromScene id =>
    rcases removeObjectFromScene_cases s id with h | h <;> simp [runAct, h]
  | setSpriteAnimationOffset id fx fy =>
    rcases setSpriteAnimationOffset_shape s id fx fy with h | h <;> simp [runAct, h]
  | onMouseMove dx dy => simp [runAct, onMouseMove]
  | getMouseMovement => simp [runAct, getMouseMovement]

theorem createResults_lower_bound (acts : List Act) :
    ∀ (s : Ctx) (x : Int), x ∈ createResults s acts → (s.nextObjId : Int) ≤ x := by
  induction acts with
  | nil => intro s x hx; simp [createResults] at hx
  | cons a rest ih =>
    intro s x hx
    have step : ∀ y : Int, y ∈ createResults (runAct s a).2 rest →
        (s.nextObjId : Int) ≤ y := by
      intro y hy
      have h1 := ih (runAct s a).2 y hy
      have h2 : (s.nextObjId : Int) ≤ ((runAct s a).2.nextObjId : Int) := by
        exact_mod_cast runAct_nextObjId_le s a
      exact le_trans h2 h1
    cases a with
    | createObject g m =>
      rcases createObject_cases s g m with h | h
      · simp only [createResults, runAct] at hx
        rw [h] at hx
        simp at hx
        exact step x (by simpa [runAct, h] using hx)
      · simp only [createResults, runAct] at hx
        rw [h] at hx
        simp at hx
        rcases hx with hx | hx
        · simp [hx]
        · exact step x (by simpa [runAct, h] using hx)
    | createSprite t =>
      rcases createSprite_cases s t with h | ⟨o, h⟩
      · simp only [createResults, runAct] at hx
        rw [h] at hx
        simp at hx
        exact step x (by simpa [runAct, h] using hx)
      · simp only [createResults, runAct] at hx
        rw [h] at hx
        simp at hx
        rcases hx with hx | hx
        · simp [hx]
        · exact step x (by simpa [runAct, h] using hx)
    | addTexture id p rows columns => exact step x (by simpa [createResults] using hx)
    | setPosition id x2 y z => exact step x (by simpa [createResults] using hx)
    | setRotation id x2 y z => exact step x (by simpa [createResults] using hx)
    | setScale id x2 y z => exact step x (by simpa [createResults] using hx)
    | addObjectToScene id => exact step x (by simpa [createResults] using hx)
    | removeObjectFromScene id => exact step x (by simpa [createResults] using hx)
    | setSpriteAnimationOffset id fx fy => exact step x (by simpa [createResults] using hx)
    | onMouseMove dx dy => exact step x (by simpa [createResults] using hx)
    | getMouseMovement => exact step x (by simpa [createResults] using hx)

theorem createResults_sorted (acts : List Act) :
    ∀ s : Ctx, List.Sorted (· < ·) (createResults s acts) := by
  induction acts with
  | nil => intro s; simp [createResults]
  | cons a rest ih =>
    intro s
    cases a with
    | createObject g m =>
      rcases createObject_cases s g m with h | h
      · simp only [createResults, runAct]
        rw [h]
        simp
        exact ih _
      · simp only [createResults, runAct]
        rw [h]
        simp [List.sorted_cons]
        constructor
        · intro b hb
          have hlb := createResults_lower_bound rest _ b hb
          have hlb2 : ((s.nextObjId : Int) + 1) ≤ b := by exact_mod_cast hlb
          omega
        · exact ih _
    | createSprite t =>
      rcases createSprite_cases s t with h | ⟨o, h⟩
      · simp only [createResults, runAct]
        rw [h]
        simp
        exact ih _
      · simp only [createResults, runAct]
        rw [h]
        simp [List.sorted_cons]
        constructor
        · intro b hb
          have hlb := createResults_lower_bound rest _ b hb
          have hlb2 : ((s.nextObjId : Int) + 1) ≤ b := by exact_mod_cast hlb
          omega
        · exact ih _
    | addTexture id p rows columns => simpa [createResults] using ih _
    | setPosition id x y z => simpa [createResults] using ih _
    | setRotation id x y z => simpa [createResults] using ih _
    | setScale id x y z => simpa [createResults] using ih _
    | addObjectToScene id => simpa [createResults] using ih _
    | removeObjectFromScene id => simpa [createResults] using ih _
    | setSpriteAnimationOffset id fx fy => simpa [createResults] using ih _
    | onMouseMove dx dy => simpa [createResults] using ih _
    | getMouseMovement => simpa [createResults] using ih _

/-- C1: over any call sequence on a single context starting at
`createContext()`, the handles returned by the successful (`≥ 0`)
`createObject` and `createSprite` calls are strictly increasing in call
order — hence pairwise distinct, so no handle value is ever issued twice for
the lifetime of the context. -/
theorem C1_creation_handles_strictly_increasing (acts : List Act) :
    List.Sorted (· < ·) (createResults initCtx acts) ∧
    List.Pairwise (· ≠ ·) (createResults initCtx acts) :=
  ⟨createResults_sorted acts initCtx,
    List.Pairwise.imp (fun h => ne_of_lt h) (createResults_sorted acts initCtx)⟩

/-! ## C5: path-level texture dedup -/

theorem setRepeatIfGrid_path (t : Texture) : (setRepeatIfGrid t).path = t.path := by
  unfold setRepeatIfGrid
  split <;> rfl

theorem countPath_updateAssoc (l : List (Int × Texture)) (k : Int)
    (f : Texture → Texture) (hf : ∀ t2 : Texture, (f t2).path = t2.path)
    (p : String) :
    ((updateAssoc l k f).filter fun e => e.2.path = p).length =
      (l.filter fun e => e.2.path = p).length := by
  induction l with
  | nil => rfl
  | cons e rest ih =>
    by_cases hk : e.1 = k <;> by_cases hp : e.2.path = p <;>
      simp [updateAssoc, List.filter_cons, hk, hp, hf] at ih ⊢ <;>
      omega

theorem addTexture_fetched_cases (s : Ctx) (id : Int) (p : String)
    (rows columns : Option Nat) :
    ((addTexture s id p rows columns).fetched = false ∧
      (addTexture s id p rows columns).ctx = s) ∨
    (p ∉ s.loadedTextures ∧ ∃ t : Texture, t.path = p ∧
      addTexture s id p rows columns =
        { ret := id,
          ctx := { s with textures := (id, t) :: s.textures,
                          loadedTextures := p :: s.loadedTextures },
          fetched := true }) := by
  unfold addTexture
  split_ifs with hc1 hc2 hc3 hc4
  · exact Or.inl ⟨rfl, rfl⟩
  · exact Or.inl ⟨rfl, rfl⟩
  · exact Or.inl ⟨rfl, rfl⟩
  · exact Or.inr ⟨hc1, _, rfl, rfl⟩
  · exact Or.inr ⟨hc1, _, rfl, rfl⟩

theorem addTexture_fetched_success (s : Ctx) (id : Int) (p : String)
    (rows columns : Option Nat)
    (h : (addTexture s id p rows columns).fetched = true) :
    p ∈ (addTexture s id p rows columns).ctx.loadedTextures ∧
    countPath (addTexture s id p rows columns).ctx p = countPath s p + 1 := by
  rcases addTexture_fetched_cases s id p rows columns with ⟨hf, _⟩ | ⟨_, t, hpath, he⟩
  · rw [hf] at h
    cases h
  · rw [he]
    exact ⟨List.mem_cons_self p _, by simp [countPath, List.filter_cons, hpath]⟩

theorem runAct_loaded_countPath (s : Ctx) (a : Act) (p : String)
    (h : p ∈ s.loadedTextures) :
    p ∈ (runAct s a).2.loadedTextures ∧
    countPath (runAct s a).2 p = countPath s p := by
  cases a with
  | createObject g m =>
    rcases createObject_cases s g m with hc | hc <;> simp [runAct, hc, countPath, h]
  | createSprite t =>
    rcases createSprite_cases s t with hc | ⟨o, hc⟩
    · simp [runAct, hc, h]
    · refine ⟨by simp [runAct, hc, h], ?_⟩
      simp only [runAct, hc, countPath]
      exact countPath_updateAssoc s.textures t setRepeatIfGrid
        (fun t2 => setRepeatIfGrid_path t2) p
  | addTexture id p2 rows columns =>
    rcases addTexture_ctx_cases s id p2 rows columns with hc | ⟨hnp, t, hpath, hc⟩
    · simp [runAct, hc, h]
    · have hne : ¬t.path = p := by
        rw [hpath]
        intro he
        exact hnp (he ▸ h)
      constructor
      · simp only [runAct, hc]
        exact List.mem_cons_of_mem _ h
      · simp [runAct, hc, countPath, List.filter_cons, hne]
  | setPosition id x y z =>
    rcases setPosition_cases s id x y z with hc | hc <;> simp [runAct, hc, countPath, h]
  | setRotation id x y z =>
    rcases setRotation_cases s id x y z with hc | hc <;> simp [runAct, hc, countPath, h]
  | setScale id x y z =>
    rcases setScale_cases s id x y z with hc | hc <;> simp [runAct, hc, countPath, h]
  | addObjectToScene id =>
    rcases addObjectToScene_cases s id with hc | hc <;> simp [runAct, hc, countPath, h]
  | removeObjectFromScene id =>
    rcases removeObjectFromScene_cases s id with hc | hc <;> simp [runAct, hc, countPath, h]
  | setSpriteAnimationOffset id fx fy =>
    rcases setSpriteAnimationOffset_shape s id fx fy with hc | hc <;>
      simp [runAct, hc, countPath, h]
  | onMouseMove dx dy => simp [runAct, onMouseMove, countPath, h]
  | getMouseMovement => simp [runAct, getMouseMovement, countPath, h]

theorem execSeq_loaded_countPath (acts : List Act) :
    ∀ (s : Ctx) (p : String), p ∈ s.loadedTextures →
      p ∈ (execSeq s acts).loadedTextures ∧
      countPath (execSeq s acts) p = countPath s p := by
  induction acts with
  | nil => intro s p h; exact ⟨h, rfl⟩
  | cons a rest ih =>
    intro s p h
    have h1 := runAct_loaded_countPath s a p h
    have h2 := ih (runAct s a).2 p h1.1
    exact ⟨h2.1, h2.2.trans h1.2⟩

/-- C5: after `addTexture(h1, p)` succeeds (the fetch is started and the
texture stored), every later `addTexture(h2, p)` with the same path under any
handle — after any interleaved sequence of other context calls — is rejected
with the error sentinel and leaves the context unchanged, and the texture
registry still holds exactly one entry for path `p`. -/
theorem C5_duplicate_path_rejected
    (s : Ctx) (h1 : Int) (p : String) (r c : Option Nat) (acts : List Act)
    (h2 : Int) (r2 c2 : Option Nat)
    (hs : (addTexture s h1 p r c).fetched = true) :
    addTexture (execSeq (addTexture s h1 p r c).ctx acts) h2 p r2 c2 =
      { ret := -1, ctx := execSeq (addTexture s h1 p r c).ctx acts,
        fetched := false } ∧
    (countPath s p = 0 →
      countPath (execSeq (addTexture s h1 p r c).ctx acts) p = 1) := by
  have hsucc := addTexture_fetched_success s h1 p r c hs
  have hinv := execSeq_loaded_countPath acts (addTexture s h1 p r c).ctx p hsucc.1
  refine ⟨addTexture_dup_path _ _ _ _ _ hinv.1, fun h0 => ?_⟩
  rw [hinv.2, hsucc.2, h0]

/-- Witness for C5: `addTexture(1, "a.png")` on a fresh context, then — with
no interleaved calls — `addTexture(2, "a.png")` is rejected and the registry
holds one entry for "a.png". -/
theorem C5_duplicate_path_rejected_witness :
    addTexture (execSeq (addTexture initCtx 1 "a.png" none none).ctx []) 2 "a.png" none none =
      { ret := -1, ctx := execSeq (addTexture initCtx 1 "a.png" none none).ctx [],
        fetched := false } ∧
    countPath (execSeq (addTexture initCtx 1 "a.png" none none).ctx []) "a.png" = 1 := by
  have h := C5_duplicate_path_rejected initCtx 1 "a.png" none none [] 2 none none
    (by decide)
  exact ⟨h.1, h.2 (by decide)⟩

/-! ## C9: unknown handles are safe -/

theorem addTexture_objects (s : Ctx) (id : Int) (p : String)
    (rows columns : Option Nat) :
    (addTexture s id p rows columns).ctx.objects = s.objects := by
  rcases addTexture_ctx_cases s id p rows columns with hc | ⟨_, t, _, hc⟩ <;>
    simp [hc]

theorem never_issued_lookup_none (acts : List Act) :
    ∀ (s : Ctx) (h : Int), h ∉ createResults s acts →
      lookupAssoc s.objects h = none →
      lookupAssoc (execSeq s acts).objects h = none := by
  induction acts with
  | nil => intro s h _ hn; exact hn
  | cons a rest ih =>
    intro s h hmem hn
    cases a with
    | createObject g m =>
      rcases createObject_cases s g m with hc | hc
      · have hmem2 : h ∉ createResults s rest := by
          simp only [createResults, runAct] at hmem
          rw [hc] at hmem
          simpa using hmem
        show lookupAssoc (execSeq (createObject s g m).2 rest).objects h = none
        rw [hc]
        exact ih s h hmem2 hn
      · simp only [createResults, runAct] at hmem
        rw [hc] at hmem
        simp at hmem
        show lookupAssoc (execSeq (createObject s g m).2 rest).objects h = none
        rw [hc]
        apply ih _ h hmem.2
        simp [lookupAssoc, hmem.1, hn]
    | createSprite t =>
      rcases createSprite_cases s t with hc | ⟨o, hc⟩
      · have hmem2 : h ∉ createResults s rest := by
          simp only [createResults, runAct] at hmem
          rw [hc] at hmem
          simpa using hmem
        show lookupAssoc (execSeq (createSprite s t).2 rest).objects h = none
        rw [hc]
        exact ih s h hmem2 hn
      · simp only [createResults, runAct] at hmem
        rw [hc] at hmem
        simp at hmem
        show lookupAssoc (execSeq (createSprite s t).2 rest).objects h = none
        rw [hc]
        apply ih _ h hmem.2
        simp [lookupAssoc, hmem.1, hn]
    | addTexture id p rows columns =>
      have hmem2 : h ∉ createResults (runAct s (Act.addTexture id p rows columns)).2 rest := by
        simpa [createResults] using hmem
      apply ih _ h hmem2
      simp only [runAct]
      rw [addTexture_objects]
      exact hn
    | setPosition id x y z =>
      have hmem2 : h ∉ createResults (runAct s (Act.setPosition id x y z)).2 rest := by
        simpa [createResults] using hmem
      apply ih _ h hmem2
      simp only [runAct]
      rcases setPosition_cases s id x y z with hc | hc <;> rw [hc]
      · exact hn
      · dsimp only
        exact lookupAssoc_updateAssoc_none _ _ _ _ hn
    | setRotation id x y z =>
      have hmem2 : h ∉ createResults (runAct s (Act.setRotation id x y z)).2 rest := by
        simpa [createResults] using hmem
      apply ih _ h hmem2
      simp only [runAct]
      rcases setRotation_cases s id x y z with hc | hc <;> rw [hc]
      · exact hn
      · dsimp only
        exact lookupAssoc_updateAssoc_none _ _ _ _ hn
    | setScale id x y z =>
      have hmem2 : h ∉ createResults (runAct s (Act.setScale id x y z)).2 rest := by
        simpa [createResults] using hmem
      apply ih _ h hmem2
      simp only [runAct]
      rcases setScale_cases s id x y z with hc | hc <;> rw [hc]
      · exact hn
      · dsimp only
        exact lookupAssoc_updateAssoc_none _ _ _ _ hn
    | addObjectToScene id =>
      have hmem2 : h ∉ createResults (runAct s (Act.addObjectToScene id)).2 rest := by
        simpa [createResults] using hmem
      apply ih _ h hmem2
      simp only [runAct]
      rcases addObjectToScene_cases s id with hc | hc <;> rw [hc] <;> exact hn
    | removeObjectFromScene id =>
      have hmem2 : h ∉ createResults (runAct s (Act.removeObjectFromScene id)).2 rest := by
        simpa [createResults] using hmem
      apply ih _ h hmem2
      simp only [runAct]
      rcases removeObjectFromScene_cases s id with hc | hc <;> rw [hc] <;> exact hn
    | setSpriteAnimationOffset id fx fy =>
      have hmem2 : h ∉ createResults (runAct s (Act.setSpriteAnimationOffset id fx fy)).2 rest := by
        simpa [createResults] using hmem
      apply ih _ h hmem2
      simp only [runAct]
      rcases setSpriteAnimationOffset_shape s id fx fy with hc | hc <;> rw [hc]
      · exact hn
      · dsimp only
        exact lookupAssoc_updateAssoc_none _ _ _ _ hn
    | onMouseMove dx dy =>
      have hmem2 : h ∉ createResults (runAct s (Act.onMouseMove dx dy)).2 rest := by
        simpa [createResults] using hmem
      exact ih _ h hmem2 hn
    | getMouseMovement =>
      have hmem2 : h ∉ createResults (runAct s Act.getMouseMovement).2 rest := by
        simpa [createResults] using hmem
      exact ih _ h hmem2 hn

/-- C9: every handle-taking mutation operation (`setPosition`, `setRotation`,
`setScale`, `addObjectToScene`, `removeObjectFromScene`,
`setSpriteAnimationOffset`) called with a handle that was never issued by a
successful creation returns the error sentinel -1 and leaves the whole
context — in particular the object and texture registries — unchanged.  (The
operations are total functions of the model: no input makes them throw.) -/
theorem C9_unknown_handle_ops_safe (acts : List Act) (h : Int) (x y z : ℚ)
    (fx fy : Int) (hni : h ∉ createResults initCtx acts) :
    setPosition (execSeq initCtx acts) h x y z = (-1, execSeq initCtx acts) ∧
    setRotation (execSeq initCtx acts) h x y z = (-1, execSeq initCtx acts) ∧
    setScale (execSeq initCtx acts) h x y z = (-1, execSeq initCtx acts) ∧
    addObjectToScene (execSeq initCtx acts) h = (-1, execSeq initCtx acts) ∧
    removeObjectFromScene (execSeq initCtx acts) h = (-1, execSeq initCtx acts) ∧
    setSpriteAnimationOffset (execSeq initCtx acts) h fx fy =
      (-1, execSeq initCtx acts) := by
  have hn : lookupAssoc (execSeq initCtx acts).objects h = none :=
    never_issued_lookup_none acts initCtx h hni rfl
  refine ⟨?_, ?_, ?_, ?_, ?_, ?_⟩ <;>
    simp [setPosition, setRotation, setScale, addObjectToScene,
      removeObjectFromScene, setSpriteAnimationOffset, hn]

/-- Witness for C9: after one successful `createObject` call (which issued
handle 0), handle 5 was never issued, and every mutation operation on it
returns -1 leaving the context unchanged. -/
theorem C9_unknown_handle_ops_safe_witness :
    setPosition (execSeq initCtx [Act.createObject 2001 1001]) 5 1 2 3 =
      (-1, execSeq initCtx [Act.createObject 2001 1001]) ∧
    setRotation (execSeq initCtx [Act.createObject 2001 1001]) 5 1 2 3 =
      (-1, execSeq initCtx [Act.createObject 2001 1001]) ∧
    setScale (execSeq initCtx [Act.createObject 2001 1001]) 5 1 2 3 =
      (-1, execSeq initCtx [Act.createObject 2001 1001]) ∧
    addObjectToScene (execSeq initCtx [Act.createObject 2001 1001]) 5 =
      (-1, execSeq initCtx [Act.createObject 2001 1001]) ∧
    removeObjectFromScene (execSeq initCtx [Act.createObject 2001 1001]) 5 =
      (-1, execSeq initCtx [Act.createObject 2001 1001]) ∧
    setSpriteAnimationOffset (execSeq initCtx [Act.createObject 2001 1001]) 5 0 0 =
      (-1, execSeq initCtx [Act.createObject 2001 1001]) :=
  C9_unknown_handle_ops_safe [Act.createObject 2001 1001] 5 1 2 3 0 0
    (by simp [createResults, runAct, createObject, isValidGeometry,
      isValidMaterial, initCtx])

end ThreeJs4Wasm
